import Mathlib

/-!
Shallow embedding of `src/main.py` (SOLIN-SOL/sol-insight), a content-posting
automation script built on Selenium and requests.

Modelling conventions:
* The process environment (`os.getenv`) is a function `String → Option String`;
  an unset variable maps to `none`.
* The browser is an oracle: for each bounded element wait (`WebDriverWait ... until`)
  a Boolean field of a world structure says whether the wait succeeds within its
  timeout; a `false` field corresponds to a `TimeoutException` at that step, which
  the source catches in the enclosing `try/except`.
* Browser side effects (navigation, clicks, field clears, keystrokes) are recorded
  as an emitted `List Action`, so ordering claims become statements about traces.
* The single HTTP GET of `fetch_content` is an oracle `HttpResult` (a status/body
  pair, or a network-layer error raising `requests.RequestException`).
* Python exceptions never escape the modelled operations, mirroring the source's
  `try/except` blocks: each operation totally returns the value the handler
  produces (`False` / `None`).
* `json.loads` is modelled by a recursive-descent JSON parser over the standard
  JSON grammar (objects, arrays, strings with escapes, numbers, literals);
  duplicate object keys resolve to the last occurrence, as in Python dicts.
* Machine integers do not occur; Python ints are unbounded, matching `Int`/`Nat`.
-/

namespace SolInsight

/-- A browser cookie, as returned by `driver.get_cookies()`: the source copies
`name`, `value` and `domain` into the requests session. -/
structure Cookie where
  name : String
  value : String
  domain : String
deriving DecidableEq, Repr

/-- One browser side effect performed through the Selenium driver. -/
inductive Action where
  | nav (url : String)
  | click (element : String)
  | clear (element : String)
  | sendKeys (element : String) (text : String)
deriving DecidableEq, Repr

/-- The configuration the script reads from the environment (after validation
all five values are present and non-empty). -/
structure Config where
  generationEndpoint : String
  platformPostUrl : String
  loginUrl : String
  email : String
  password : String
deriving DecidableEq, Repr

/-- The list `self.required_vars` from `ContentPoster.__init__`. -/
def required_vars : List String :=
  ["GENERATION_ENDPOINT", "PLATFORM_POST_URL", "LOGIN_URL", "EMAIL", "PASSWORD"]

/-- Python's `', '.join` / `sep.join` on a list of strings. -/
def pyJoin (sep : String) : List String → String
  | [] => ""
  | [x] => x
  | x :: y :: xs => x ++ sep ++ pyJoin sep (y :: xs)

/-- The list comprehension `[var for var in self.required_vars if not os.getenv(var)]`:
a variable is missing when it is unset or empty (Python falsiness of `None`/`""`). -/
def missingVars (env : String → Option String) : List String :=
  required_vars.filter (fun v =>
    match env v with
    | none => true
    | some s => s = "")

/-- `ContentPoster._validate_env_vars`: raises `ValueError` naming all missing
variables when any required variable is unset or empty, else returns normally.
The raised exception is modelled as `Except.error` carrying the message. -/
def validate_env_vars (env : String → Option String) : Except String Unit :=
  let missing_vars := missingVars env
  if missing_vars = [] then Except.ok ()
  else Except.error ("Missing required environment variables: " ++ pyJoin ", " missing_vars)

/-- The browser-side oracle for one `login()` attempt: whether navigation and
each bounded element wait succeeds, and the cookies `driver.get_cookies()`
returns after a successful login. -/
structure LoginWorld where
  navOk : Bool
  usernameField : Bool
  passwordField : Bool
  loginButton : Bool
  successMarker : Bool
  browserCookies : List Cookie
deriving DecidableEq, Repr

/-- `self.session.cookies.set(name, value, domain)`: replace a cookie with the
same name and domain, else add the cookie to the jar. -/
def cookieSet (jar : List Cookie) (c : Cookie) : List Cookie :=
  if jar.any (fun d => d.name = c.name && d.domain = c.domain) then
    jar.map (fun d => if d.name = c.name && d.domain = c.domain then c else d)
  else jar ++ [c]

/-- `ContentPoster.login`: navigate to the login URL, wait for the username
field, password field and login button, type the credentials, click, wait for
the post-login success marker, then copy every browser cookie into the
requests session. Any exception (a failed wait at any step) is caught and
yields `false` with the session unchanged. Returns
(result, session cookie jar after the call, emitted browser actions). -/
def login (cfg : Config) (w : LoginWorld) (session : List Cookie) :
    Bool × List Cookie × List Action :=
  let t0 : List Action := [Action.nav cfg.loginUrl]
  if !w.navOk then (false, session, t0)
  else if !w.usernameField then (false, session, t0)
  else if !w.passwordField then (false, session, t0)
  else if !w.loginButton then (false, session, t0)
  else
    let t1 := t0 ++ [Action.sendKeys "login-account-name" cfg.email,
                     Action.sendKeys "login-account-password" cfg.password,
                     Action.click "login-button"]
    if !w.successMarker then (false, session, t1)
    else (true, w.browserCookies.foldl cookieSet session, t1)

/-- The outcome of `self.session.get(endpoint, timeout=2000)`: either a response
with a status code and a body text, or a network-layer `requests.RequestException`. -/
inductive HttpResult where
  | success (status : Nat) (body : String)
  | networkError
deriving DecidableEq, Repr

/-- True for the ASCII whitespace characters stripped by Python's `str.strip()`
and `int()` (space, tab, line feed, carriage return, vertical tab, form feed). -/
def pySpace (c : Char) : Bool :=
  c = ' ' ∨ c = '\t' ∨ c = '\n' ∨ c = '\r' ∨ c = Char.ofNat 11 ∨ c = Char.ofNat 12

/-- Python's `str.strip()` with no argument: remove whitespace from both ends. -/
def pyStrip (s : String) : String :=
  String.mk (((s.data.dropWhile pySpace).reverse.dropWhile pySpace).reverse)

/-- `ContentPoster.fetch_content`: GET the generation endpoint;
`raise_for_status()` raises (caught, yielding `None`) on status 400–599; strip
the body; an empty stripped body yields `None`; otherwise return the stripped
text. A network error is caught and yields `None`. -/
def fetch_content (resp : HttpResult) : Option String :=
  match resp with
  | HttpResult.networkError => none
  | HttpResult.success status body =>
    if 400 ≤ status ∧ status < 600 then none
    else
      let content := pyStrip body
      if content = "" then none
      else some content

/-- A parsed JSON value, the result of `json.loads`. Numbers keep their raw
lexeme (no claim inspects numeric values). -/
inductive Json where
  | null
  | bool (b : Bool)
  | num (raw : String)
  | str (s : String)
  | arr (elems : List Json)
  | obj (members : List (String × Json))

/-- Skip JSON whitespace (space, tab, line feed, carriage return). -/
def skipWs : List Char → List Char
  | [] => []
  | c :: rest =>
    if c = ' ' ∨ c = '\t' ∨ c = '\n' ∨ c = '\r' then skipWs rest else c :: rest

/-- Value of one hexadecimal digit, for `\u` escapes. -/
def hexVal (c : Char) : Option Nat :=
  if '0' ≤ c ∧ c ≤ '9' then some (c.toNat - '0'.toNat)
  else if 'a' ≤ c ∧ c ≤ 'f' then some (c.toNat - 'a'.toNat + 10)
  else if 'A' ≤ c ∧ c ≤ 'F' then some (c.toNat - 'A'.toNat + 10)
  else none

/-- Parse the body of a JSON string after its opening quote, handling the
standard escapes, up to and including the closing quote. Returns the decoded
characters and the remaining input. -/
def parseStringBody : List Char → Option (List Char × List Char)
  | [] => none
  | '"' :: rest => some ([], rest)
  | '\\' :: rest =>
    match rest with
    | [] => none
    | 'u' :: rest2 =>
      match rest2 with
      | a :: b :: c :: d :: rest3 =>
        match hexVal a, hexVal b, hexVal c, hexVal d with
        | some x, some y, some z, some u =>
          (parseStringBody rest3).map
            (fun p => (Char.ofNat (((x * 16 + y) * 16 + z) * 16 + u) :: p.1, p.2))
        | _, _, _, _ => none
      | _ => none
    | e :: rest2 =>
      let decoded : Option Char :=
        if e = '"' ∨ e = '\\' ∨ e = '/' then some e
        else if e = 'b' then some (Char.ofNat 8)
        else if e = 'f' then some (Char.ofNat 12)
        else if e = 'n' then some '\n'
        else if e = 'r' then some '\r'
        else if e = 't' then some '\t'
        else none
      match decoded with
      | none => none
      | some ch => (parseStringBody rest2).map (fun p => (ch :: p.1, p.2))
  | c :: rest => (parseStringBody rest).map (fun p => (c :: p.1, p.2))

/-- Integer part of a JSON number: `0` or a nonzero digit followed by digits. -/
def parseIntPart (cs : List Char) : Option (List Char × List Char) :=
  match cs with
  | [] => none
  | '0' :: rest => some (['0'], rest)
  | c :: rest =>
    if c.isDigit then
      let (ds, r) := rest.span Char.isDigit
      some (c :: ds, r)
    else none

/-- Optional fraction part of a JSON number: `.` followed by at least one digit. -/
def parseFracPart (cs : List Char) : Option (List Char × List Char) :=
  match cs with
  | '.' :: rest =>
    let (ds, r) := rest.span Char.isDigit
    if ds = [] then none else some ('.' :: ds, r)
  | _ => some ([], cs)

/-- Optional exponent part of a JSON number: `e`/`E`, optional sign, digits. -/
def parseExpPart (cs : List Char) : Option (List Char × List Char) :=
  match cs with
  | [] => some ([], cs)
  | e :: rest =>
    if e = 'e' ∨ e = 'E' then
      match rest with
      | [] => none
      | s :: rest2 =>
        if s = '+' ∨ s = '-' then
          let (ds, r) := rest2.span Char.isDigit
          if ds = [] then none else some (e :: s :: ds, r)
        else
          let (ds, r) := rest.span Char.isDigit
          if ds = [] then none else some (e :: ds, r)
    else some ([], cs)

/-- Parse a JSON number lexeme (optional minus, int, frac, exp), kept raw. -/
def parseNumber (cs : List Char) : Option (Json × List Char) :=
  let (sign, cs1) :=
    match cs with
    | '-' :: rest => (['-'], rest)
    | _ => (([] : List Char), cs)
  match parseIntPart cs1 with
  | none => none
  | some (ip, cs2) =>
    match parseFracPart cs2 with
    | none => none
    | some (fp, cs3) =>
      match parseExpPart cs3 with
      | none => none
      | some (ep, cs4) => some (Json.num (String.mk (sign ++ ip ++ fp ++ ep)), cs4)

mutual

/-- Fuelled recursive-descent parser for one JSON value (`json.loads` also
accepts the Python extensions `NaN`, `Infinity`, `-Infinity`). -/
def parseValue : Nat → List Char → Option (Json × List Char)
  | 0, _ => none
  | fuel + 1, cs =>
    match skipWs cs with
    | 'n' :: 'u' :: 'l' :: 'l' :: rest => some (Json.null, rest)
    | 't' :: 'r' :: 'u' :: 'e' :: rest => some (Json.bool true, rest)
    | 'f' :: 'a' :: 'l' :: 's' :: 'e' :: rest => some (Json.bool false, rest)
    | 'N' :: 'a' :: 'N' :: rest => some (Json.num "NaN", rest)
    | 'I' :: 'n' :: 'f' :: 'i' :: 'n' :: 'i' :: 't' :: 'y' :: rest =>
      some (Json.num "Infinity", rest)
    | '-' :: 'I' :: 'n' :: 'f' :: 'i' :: 'n' :: 'i' :: 't' :: 'y' :: rest =>
      some (Json.num "-Infinity", rest)
    | '"' :: rest => (parseStringBody rest).map (fun p => (Json.str (String.mk p.1), p.2))
    | '[' :: rest =>
      match skipWs rest with
      | ']' :: rest2 => some (Json.arr [], rest2)
      | cs2 => (parseElems fuel cs2).map (fun p => (Json.arr p.1, p.2))
    | '{' :: rest =>
      match skipWs rest with
      | '}' :: rest2 => some (Json.obj [], rest2)
      | cs2 => (parseMembers fuel cs2).map (fun p => (Json.obj p.1, p.2))
    | cs1 => parseNumber cs1

/-- Parse the non-empty comma-separated elements of a JSON array, up to and
including the closing bracket. -/
def parseElems : Nat → List Char → Option (List Json × List Char)
  | 0, _ => none
  | fuel + 1, cs =>
    match parseValue fuel cs with
    | none => none
    | some (v, rest) =>
      match skipWs rest with
      | ',' :: rest2 => (parseElems fuel rest2).map (fun p => (v :: p.1, p.2))
      | ']' :: rest2 => some ([v], rest2)
      | _ => none

/-- Parse the non-empty comma-separated members of a JSON object, up to and
including the closing brace. -/
def parseMembers : Nat → List Char → Option (List (String × Json) × List Char)
  | 0, _ => none
  | fuel + 1, cs =>
    match skipWs cs with
    | '"' :: rest =>
      match parseStringBody rest with
      | none => none
      | some (k, rest2) =>
        match skipWs rest2 with
        | ':' :: rest3 =>
          match parseValue fuel rest3 with
          | none => none
          | some (v, rest4) =>
            match skipWs rest4 with
            | ',' :: rest5 =>
              (parseMembers fuel rest5).map (fun p => ((String.mk k, v) :: p.1, p.2))
            | '}' :: rest5 => some ([(String.mk k, v)], rest5)
            | _ => none
        | _ => none
    | _ => none

end

/-- `json.loads`: parse one JSON document; trailing whitespace is allowed,
any other trailing input is an error. A parse failure (`None` here) models the
`json.JSONDecodeError` the source catches. -/
def json_loads (s : String) : Option Json :=
  match parseValue (2 * s.length + 2) s.data with
  | none => none
  | some (v, rest) => if skipWs rest = [] then some v else none

/-- Python dict subscription `d[k]` on a parsed JSON value: on an object,
the last binding of `k` wins (as for duplicate keys in `json.loads`); a
missing key (`KeyError`) or a non-dict value (`TypeError`) yields `none`,
both exceptions being caught by the enclosing `try/except` in the source. -/
def Json.lookup : Json → String → Option Json
  | Json.obj members, k =>
    members.foldl (fun acc p => if p.1 = k then some p.2 else acc) none
  | _, _ => none

/-- The browser-side oracle for one `post_content_to_platform` attempt:
whether navigation and each bounded element wait succeeds. -/
structure PostWorld where
  navOk : Bool
  newTopicButton : Bool
  titleInput : Bool
  categoryDropdown : Bool
  sRFCOption : Bool
  bodyInput : Bool
  createTopicButton : Bool
deriving DecidableEq, Repr

/-- `ContentPoster.post_content_to_platform`: return `false` immediately when
the session cookie jar is empty; otherwise navigate to the platform URL, wait
for and click the New Topic control, wait for the title input, `json.loads` the
content and read its `topic` and `forumPost` entries (both are read, for
logging, before any typing), fill the title, open the category dropdown, pick
the sRFC option, fill the body, and click Create Topic. Any exception — a
failed wait, a JSON parse error, a missing key, or a non-text field value
rejected by `send_keys` — is caught and yields `false`. Returns the result and
the emitted browser actions. -/
def post_content_to_platform (platformUrl : String) (sessionCookies : List Cookie)
    (w : PostWorld) (content : String) : Bool × List Action :=
  if sessionCookies.isEmpty then (false, [])
  else
    let t0 : List Action := [Action.nav platformUrl]
    if !w.navOk then (false, t0)
    else if !w.newTopicButton then (false, t0)
    else
      let t1 := t0 ++ [Action.click "new-topic-button"]
      if !w.titleInput then (false, t1)
      else
        match json_loads content with
        | none => (false, t1)
        | some d =>
          match d.lookup "topic", d.lookup "forumPost" with
          | some (Json.str title), some (Json.str body) =>
            let t2 := t1 ++ [Action.clear "title-input", Action.sendKeys "title-input" title]
            if !w.categoryDropdown then (false, t2)
            else
              let t3 := t2 ++ [Action.click "category-dropdown"]
              if !w.sRFCOption then (false, t3)
              else
                let t4 := t3 ++ [Action.click "sRFC-option"]
                if !w.bodyInput then (false, t4)
                else
                  let t5 := t4 ++ [Action.clear "body-input", Action.sendKeys "body-input" body]
                  if !w.createTopicButton then (false, t5)
                  else (true, t5 ++ [Action.click "create-topic-button"])
          | _, _ => (false, t1)

/-- One of the three workflow steps `run()` can attempt. -/
inductive Step where
  | loginStep
  | fetchStep
  | postStep
deriving DecidableEq, Repr

/-- The oracles for one whole workflow run. -/
structure World where
  login : LoginWorld
  http : HttpResult
  post : PostWorld
deriving DecidableEq, Repr

/-- `ContentPoster.run`: attempt login (the requests session starts with an
empty cookie jar, as a fresh `requests.Session()`), return `false` if it fails;
fetch content, return `false` if it is absent; post the content and return the
posting result. Also returns the list of steps attempted, in order. -/
def run (cfg : Config) (w : World) : Bool × List Step :=
  let l := login cfg w.login []
  if !l.1 then (false, [Step.loginStep])
  else
    match fetch_content w.http with
    | none => (false, [Step.loginStep, Step.fetchStep])
    | some content =>
      let p := post_content_to_platform cfg.platformPostUrl l.2.1 w.post content
      (p.1, [Step.loginStep, Step.fetchStep, Step.postStep])

/-- After the first digit of an `int()` literal: digits, with single
underscores allowed only between digits. -/
def pyDigitsTail : List Char → Bool
  | [] => true
  | '_' :: c :: rest => c.isDigit && pyDigitsTail rest
  | ['_'] => false
  | c :: rest => c.isDigit && pyDigitsTail rest

/-- A valid `int()` digit sequence: non-empty, starting with a digit, with
single underscores only between digits. -/
def pyDigitsOk : List Char → Bool
  | [] => false
  | c :: rest => c.isDigit && pyDigitsTail rest

/-- Numeric value of a digit sequence once underscores are removed. -/
def digitsToNat (cs : List Char) : Nat :=
  cs.foldl (fun acc c => 10 * acc + (c.toNat - '0'.toNat)) 0

/-- Python's `int(s)` on a string: strip whitespace, allow one optional sign,
then a digit sequence with optional single underscores between digits; any
other input raises `ValueError`, modelled as `none`. -/
def pyInt (s : String) : Option Int :=
  let cs := ((s.data.dropWhile pySpace).reverse.dropWhile pySpace).reverse
  let signed : Bool × List Char :=
    match cs with
    | '+' :: rest => (false, rest)
    | '-' :: rest => (true, rest)
    | _ => (false, cs)
  if pyDigitsOk signed.2 then
    let n : Int := Int.ofNat (digitsToNat (signed.2.filter (fun c => c ≠ '_')))
    some (if signed.1 then -n else n)
  else none

/-- A record of one iteration of the posting loop: the outcome of the guarded
`poster.run()` call (`Except.error` when it raised, the exception being caught
and logged by the loop), followed by the `time.sleep` of this many seconds. -/
structure CycleTrace where
  outcome : Except String Bool
  sleepSeconds : Int
deriving Repr

/-- The observable behaviour of `main()`:
`raises` — an exception escapes `main` before any cycle (the `int()` call);
`single` — exactly one guarded `run()` call, then `exit` with the given code;
`loops` — an unbounded loop, with the `n`-th cycle described by `cycles n`. -/
inductive MainResult where
  | raises (msg : String)
  | single (outcome : Except String Bool) (exitCode : Nat)
  | loops (cycles : Nat → CycleTrace)

/-- `main()`: read `POSTING_INTERVAL`; when it is unset or empty (falsy), run
the workflow once under `try/except` and exit with code 0; otherwise convert
it with `int()` — an invalid literal raises an uncaught `ValueError` — and
loop forever, each cycle running the workflow under `try/except` and sleeping
`interval * 60 * 60` seconds. The outcome of the `n`-th guarded `run()` call is
supplied by the oracle `outcomes n`. -/
def main (env : String → Option String) (outcomes : Nat → Except String Bool) :
    MainResult :=
  match env "POSTING_INTERVAL" with
  | none => MainResult.single (outcomes 0) 0
  | some s =>
    if s = "" then MainResult.single (outcomes 0) 0
    else
      match pyInt s with
      | none => MainResult.raises "ValueError: invalid literal for int() with base 10"
      | some k =>
        MainResult.loops (fun n => { outcome := outcomes n, sleepSeconds := k * 60 * 60 })

/-- Action `a` occurs strictly before action `b` in the trace `tr`. -/
def actionBefore (tr : List Action) (a b : Action) : Prop :=
  ∃ i j : Nat, i < j ∧ tr[i]? = some a ∧ tr[j]? = some b

theorem pyJoin_contains (sep v : String) :
    ∀ l : List String, v ∈ l → ∃ p q, pyJoin sep l = p ++ (v ++ q)
  | [], h => absurd h (List.not_mem_nil v)
  | [x], h => by
    rcases List.mem_singleton.mp h with rfl
    exact ⟨"", "", by simp [pyJoin, String.append_empty, String.empty_append]⟩
  | x :: y :: xs, h => by
    rcases List.mem_cons.mp h with rfl | h2
    · exact ⟨"", sep ++ pyJoin sep (y :: xs),
        by simp [pyJoin, String.empty_append, String.append_assoc]⟩
    · obtain ⟨p, q, hp⟩ := pyJoin_contains sep v (y :: xs) h2
      exact ⟨x ++ sep ++ p, q, by simp [pyJoin, hp, String.append_assoc]⟩

/-- C7: whenever one or more required configuration keys are absent or empty,
construction fails (`_validate_env_vars` raises `ValueError`) with a message
that contains every missing key, not only the first one found. -/
theorem validate_env_vars_names_all_missing (env : String → Option String)
    (h : missingVars env ≠ []) :
    ∃ msg, validate_env_vars env = Except.error msg ∧
      ∀ v ∈ missingVars env, ∃ p q, msg = p ++ (v ++ q) := by
  refine ⟨"Missing required environment variables: " ++ pyJoin ", " (missingVars env),
    ?_, ?_⟩
  · unfold validate_env_vars
    simp [h]
  · intro v hv
    obtain ⟨p, q, hp⟩ := pyJoin_contains ", " v (missingVars env) hv
    exact ⟨"Missing required environment variables: " ++ p, q,
      by rw [hp, String.append_assoc]⟩

theorem validate_env_vars_names_all_missing_witness :
    missingVars (fun _ => none) ≠ [] ∧
    ∃ msg, validate_env_vars (fun _ => none) = Except.error msg ∧
      ∀ v ∈ missingVars (fun _ => none), ∃ p q, msg = p ++ (v ++ q) :=
  ⟨by decide, validate_env_vars_names_all_missing (fun _ => none) (by decide)⟩

/-- C3: if the post-login success marker never appears within its wait timeout,
`login()` returns `false` and the HTTP session's cookie jar is unchanged — no
cookie is copied from the browser into the session. -/
theorem login_marker_timeout_no_cookies (cfg : Config) (w : LoginWorld)
    (session : List Cookie) (h : w.successMarker = false) :
    (login cfg w session).1 = false ∧ (login cfg w session).2.1 = session := by
  rcases w with ⟨nav, u, p, b, m, bc⟩
  simp only at h
  subst h
  cases nav <;> cases u <;> cases p <;> cases b <;> simp [login]

theorem login_marker_timeout_no_cookies_witness :
    (LoginWorld.mk true true true true false [Cookie.mk "n" "v" "d"]).successMarker = false ∧
    ((login (Config.mk "g" "p" "l" "e" "pw")
        (LoginWorld.mk true true true true false [Cookie.mk "n" "v" "d"]) []).1 = false ∧
      (login (Config.mk "g" "p" "l" "e" "pw")
        (LoginWorld.mk true true true true false [Cookie.mk "n" "v" "d"]) []).2.1 = []) :=
  ⟨rfl, login_marker_timeout_no_cookies _ _ _ rfl⟩

/-- C4: `fetch_content()` returns `None` on a 4xx/5xx status and on a network
error, returns `None` on a 200 response whose body strips to empty, and
otherwise returns the stripped (non-empty) body text. -/
theorem fetch_content_spec :
    fetch_content HttpResult.networkError = none
  ∧ (∀ status body, 400 ≤ status → status < 600 →
      fetch_content (HttpResult.success status body) = none)
  ∧ (∀ body, pyStrip body = "" → fetch_content (HttpResult.success 200 body) = none)
  ∧ (∀ body, pyStrip body ≠ "" →
      fetch_content (HttpResult.success 200 body) = some (pyStrip body)) := by
  refine ⟨rfl, ?_, ?_, ?_⟩
  · intro status body h1 h2
    simp [fetch_content, h1, h2]
  · intro body h
    simp [fetch_content, h]
  · intro body h
    simp [fetch_content, h]

theorem fetch_content_spec_witness :
    (400 ≤ 503 ∧ 503 < 600 ∧ fetch_content (HttpResult.success 503 "oops") = none)
  ∧ (pyStrip " \n " = "" ∧ fetch_content (HttpResult.success 200 " \n ") = none)
  ∧ (pyStrip " hi " ≠ "" ∧ fetch_content (HttpResult.success 200 " hi ") = some "hi") :=
  ⟨⟨by decide, by decide, fetch_content_spec.2.1 503 "oops" (by decide) (by decide)⟩,
   ⟨by decide, fetch_content_spec.2.2.1 " \n " (by decide)⟩,
   ⟨by decide, fetch_content_spec.2.2.2 " hi " (by decide)⟩⟩

/-- C5: with an empty session cookie jar, `post_content_to_platform` returns
`false` immediately and performs no browser action at all — in particular it
does not navigate to the posting URL. -/
theorem post_without_cookies_no_actions (url : String) (w : PostWorld)
    (content : String) :
    post_content_to_platform url [] w content = (false, []) := rfl

/-- C9: with `POSTING_INTERVAL` unset, `main` runs the workflow exactly once
and exits with code 0, whatever the guarded `run()` call produced. -/
theorem main_unset_interval_single_run (env : String → Option String)
    (outcomes : Nat → Except String Bool) (h : env "POSTING_INTERVAL" = none) :
    main env outcomes = MainResult.single (outcomes 0) 0 := by
  unfold main
  rw [h]

theorem main_unset_interval_single_run_witness :
    (fun _ : String => (none : Option String)) "POSTING_INTERVAL" = none ∧
    main (fun _ => none) (fun _ => Except.error "boom") =
      MainResult.single (Except.error "boom") 0 :=
  ⟨rfl, main_unset_interval_single_run (fun _ => none) (fun _ => Except.error "boom") rfl⟩

/-- C8: with a truthy `POSTING_INTERVAL` that `int()` accepts (and a
non-negative value, so `time.sleep` does not itself raise), `main` loops
without end: every cycle — whatever its guarded `run()` outcome, failure and
raised exception included — is followed by a sleep of `interval * 60 * 60`
seconds and a next cycle. -/
theorem main_interval_loop_retries (env : String → Option String)
    (outcomes : Nat → Except String Bool) (s : String) (k : Int)
    (hset : env "POSTING_INTERVAL" = some s) (hne : s ≠ "") (hk : pyInt s = some k)
    (_hk0 : 0 ≤ k) :
    ∃ cycles, main env outcomes = MainResult.loops cycles ∧
      ∀ n, cycles n = { outcome := outcomes n, sleepSeconds := k * 60 * 60 } := by
  refine ⟨fun n => { outcome := outcomes n, sleepSeconds := k * 60 * 60 }, ?_, fun n => rfl⟩
  unfold main
  simp only [hset]
  rw [if_neg hne]
  simp only [hk]

theorem main_interval_loop_retries_witness :
    pyInt "6" = some 6 ∧
    ∃ cycles,
      main (fun v => if v = "POSTING_INTERVAL" then some "6" else none)
          (fun _ => Except.error "TimeoutException") = MainResult.loops cycles ∧
      ∀ n, cycles n = { outcome := Except.error "TimeoutException",
                        sleepSeconds := (6 : Int) * 60 * 60 } :=
  ⟨by decide,
   main_interval_loop_retries (fun v => if v = "POSTING_INTERVAL" then some "6" else none)
     (fun _ => Except.error "TimeoutException") "6" 6 (by decide) (by decide) (by decide)
     (by decide)⟩

/-- C10 as stated is false at the empty string: `POSTING_INTERVAL=""` is set
and is not a valid integer literal, yet `main` does not raise — the empty
string is falsy, so the driver takes the single-run branch, runs once and
exits 0 instead of reaching the `int()` conversion. -/
theorem main_empty_interval_counterexample :
    (fun v => if v = "POSTING_INTERVAL" then some "" else none) "POSTING_INTERVAL"
      = some "" ∧
    pyInt "" = none ∧
    main (fun v => if v = "POSTING_INTERVAL" then some "" else none)
        (fun _ => Except.ok true) = MainResult.single (Except.ok true) 0 ∧
    main (fun v => if v = "POSTING_INTERVAL" then some "" else none)
        (fun _ => Except.ok true) ≠
      MainResult.raises "ValueError: invalid literal for int() with base 10" :=
  ⟨rfl, by decide, rfl, fun h => MainResult.noConfusion h⟩

/-- C10 amended: if `POSTING_INTERVAL` is set to a non-empty (truthy) value
that is not a valid integer literal, `main` raises an uncaught `ValueError`
at the `int()` conversion before any cycle runs, so no login, fetch, or post
is ever attempted. -/
theorem main_invalid_interval_raises (env : String → Option String)
    (outcomes : Nat → Except String Bool) (s : String)
    (hset : env "POSTING_INTERVAL" = some s) (hne : s ≠ "") (hbad : pyInt s = none) :
    main env outcomes =
      MainResult.raises "ValueError: invalid literal for int() with base 10" := by
  unfold main
  simp only [hset]
  rw [if_neg hne]
  simp only [hbad]

theorem main_invalid_interval_raises_witness :
    pyInt "abc" = none ∧
    main (fun v => if v = "POSTING_INTERVAL" then some "abc" else none)
        (fun _ => Except.ok true) =
      MainResult.raises "ValueError: invalid literal for int() with base 10" :=
  ⟨by decide,
   main_invalid_interval_raises (fun v => if v = "POSTING_INTERVAL" then some "abc" else none)
     (fun _ => Except.ok true) "abc" (by decide) (by decide) (by decide)⟩

/-- C1: `run()` performs login, then fetch, then post, in that fixed order;
each later step is attempted only if every earlier step succeeded; it returns
`false` as soon as a step fails; and it returns `true` exactly when all three
steps succeed. -/
theorem run_short_circuit (cfg : Config) (w : World) :
    ((login cfg w.login []).1 = false → run cfg w = (false, [Step.loginStep]))
  ∧ ((login cfg w.login []).1 = true → fetch_content w.http = none →
      run cfg w = (false, [Step.loginStep, Step.fetchStep]))
  ∧ (∀ content, (login cfg w.login []).1 = true → fetch_content w.http = some content →
      run cfg w =
        ((post_content_to_platform cfg.platformPostUrl (login cfg w.login []).2.1
            w.post content).1,
          [Step.loginStep, Step.fetchStep, Step.postStep]))
  ∧ ((run cfg w).1 = true ↔
      (login cfg w.login []).1 = true ∧
      ∃ content, fetch_content w.http = some content ∧
        (post_content_to_platform cfg.platformPostUrl (login cfg w.login []).2.1
            w.post content).1 = true) := by
  cases hl : (login cfg w.login []).1 with
  | false => simp [run, hl]
  | true =>
    cases hf : fetch_content w.http with
    | none => simp [run, hl, hf]
    | some content => simp [run, hl, hf]

theorem run_short_circuit_witness :
    (login (Config.mk "g" "p" "l" "e" "pw")
      (LoginWorld.mk true true true true true [Cookie.mk "n" "v" "d"]) []).1 = true ∧
    fetch_content (HttpResult.success 200 "\x7b\"topic\": \"T\", \"forumPost\": \"B\"\x7d") =
      some "\x7b\"topic\": \"T\", \"forumPost\": \"B\"\x7d" ∧
    run (Config.mk "g" "p" "l" "e" "pw")
      (World.mk (LoginWorld.mk true true true true true [Cookie.mk "n" "v" "d"])
        (HttpResult.success 200 "\x7b\"topic\": \"T\", \"forumPost\": \"B\"\x7d")
        (PostWorld.mk true true true true true true true)) =
      (true, [Step.loginStep, Step.fetchStep, Step.postStep]) := by
  refine ⟨by decide, by decide, ?_⟩
  rw [(run_short_circuit (Config.mk "g" "p" "l" "e" "pw")
    (World.mk (LoginWorld.mk true true true true true [Cookie.mk "n" "v" "d"])
      (HttpResult.success 200 "\x7b\"topic\": \"T\", \"forumPost\": \"B\"\x7d")
      (PostWorld.mk true true true true true true true))).2.2.1
    "\x7b\"topic\": \"T\", \"forumPost\": \"B\"\x7d" (by decide) (by decide)]
  decide

/-- C2: on content `{"topic": "T", "forumPost": "B"}`, with a non-empty
session cookie jar and every element wait succeeding, the Publisher succeeds;
the only text typed into the title field is exactly `"T"` and the only text
typed into the body field is exactly `"B"`; the title keystroke precedes the
body keystroke, and both precede the Create Topic (submit) click. -/
theorem post_fills_title_then_body_then_submit (url : String) (c : Cookie)
    (cs : List Cookie) :
    let r := post_content_to_platform url (c :: cs)
      (PostWorld.mk true true true true true true true)
      "\x7b\"topic\": \"T\", \"forumPost\": \"B\"\x7d"
    r.1 = true
  ∧ r.2 = [Action.nav url, Action.click "new-topic-button", Action.clear "title-input",
      Action.sendKeys "title-input" "T", Action.click "category-dropdown",
      Action.click "sRFC-option", Action.clear "body-input",
      Action.sendKeys "body-input" "B", Action.click "create-topic-button"]
  ∧ (∀ s, Action.sendKeys "title-input" s ∈ r.2 → s = "T")
  ∧ (∀ s, Action.sendKeys "body-input" s ∈ r.2 → s = "B")
  ∧ actionBefore r.2 (Action.sendKeys "title-input" "T") (Action.sendKeys "body-input" "B")
  ∧ actionBefore r.2 (Action.sendKeys "title-input" "T") (Action.click "create-topic-button")
  ∧ actionBefore r.2 (Action.sendKeys "body-input" "B") (Action.click "create-topic-button") := by
  intro r
  have h2 : r.2 = [Action.nav url, Action.click "new-topic-button", Action.clear "title-input",
      Action.sendKeys "title-input" "T", Action.click "category-dropdown",
      Action.click "sRFC-option", Action.clear "body-input",
      Action.sendKeys "body-input" "B", Action.click "create-topic-button"] := rfl
  refine ⟨rfl, h2, ?_, ?_, ?_, ?_, ?_⟩
  · intro s hs
    rw [h2] at hs
    simp only [List.mem_cons, List.not_mem_nil, or_false] at hs
    rcases hs with h | h | h | h | h | h | h | h | h <;> simp_all
  · intro s hs
    rw [h2] at hs
    simp only [List.mem_cons, List.not_mem_nil, or_false] at hs
    rcases hs with h | h | h | h | h | h | h | h | h <;> simp_all
  · exact ⟨3, 7, by omega, by rw [h2]; rfl, by rw [h2]; rfl⟩
  · exact ⟨3, 8, by omega, by rw [h2]; rfl, by rw [h2]; rfl⟩
  · exact ⟨7, 8, by omega, by rw [h2]; rfl, by rw [h2]; rfl⟩

/-- C6: for content that is not valid JSON, or that parses to JSON without a
`topic` entry or without a `forumPost` entry, `post_content_to_platform`
returns `false`; the parse error or key error is caught inside the operation
(the modelled operation is total), so no exception escapes the call. -/
theorem post_malformed_content_false (url : String) (cs : List Cookie)
    (w : PostWorld) (content : String)
    (h : json_loads content = none ∨
      ∀ d, json_loads content = some d →
        (Json.lookup d "topic" = none ∨ Json.lookup d "forumPost" = none)) :
    (post_content_to_platform url cs w content).1 = false := by
  unfold post_content_to_platform
  split_ifs <;> try rfl
  all_goals {
    rcases hj : json_loads content with _ | d
    · simp [hj]
    · rcases h with h | h
      · rw [hj] at h
        cases h
      · rcases h d hj with hk | hk
        · simp [hj, hk]
        · rcases ht : Json.lookup d "topic" with _ | tv
          · simp [hj, ht]
          · rcases tv <;> simp [hj, ht, hk]
  }

theorem post_malformed_content_false_witness :
    (json_loads "this is not json" = none ∨
      ∀ d, json_loads "this is not json" = some d →
        (Json.lookup d "topic" = none ∨ Json.lookup d "forumPost" = none)) ∧
    (post_content_to_platform "u" [Cookie.mk "n" "v" "d"]
      (PostWorld.mk true true true true true true true) "this is not json").1 = false :=
  ⟨Or.inl rfl,
   post_malformed_content_false "u" [Cookie.mk "n" "v" "d"]
     (PostWorld.mk true true true true true true true) "this is not json" (Or.inl rfl)⟩

end SolInsight
